import Mathlib

/-!
Shallow embedding of the resilient PDF-acquisition pipeline in
`src/pdf/scrapers/issuu_crawler.py` (class `IssuuCrawler`).

The browser (Playwright) and the HTTP stack (requests) are external
capabilities: a `Page` value records the outcome every capability call of the
crawler would observe (visibility of the elements each locator selects, the
attribute values read from them, the serialized page content, the result of the
injected script).  Every function of the crawler that the claims touch is
translated statement by statement:

* `getPdfUrlT`      — `IssuuCrawler._get_pdf_url`   (lines 252-369)
* `extractPdfUrlFromDom` — `IssuuCrawler._extract_pdf_url_from_dom` (208-250)
* `openLoop` / `openPageWithStrategy` — `IssuuCrawler._open_page_with_strategy` (151-206)
* `downloadFile`    — `IssuuCrawler._download_file` (371-451)
* `runAttempts` / `downloadPdf` — `IssuuCrawler.download_pdf` (467-572)

Python truthiness of strings (`if s:`) is `s ≠ ""`; a `None`-able value is an
`Option`.  Exceptions swallowed by a `try/except` that merely falls through are
the `none` branches of the corresponding query fields.
-/

namespace IssuuCrawler

/-- Python string truthiness applied to an optional string: `None` and the
empty string are falsy, everything else is kept. -/
def truthy : Option String → Option String
  | none => none
  | some s => if s = "" then none else some s

/-- Does `pat` occur at the head of `cs`? (used for substring search). -/
def atHead : List Char → List Char → Bool
  | [], _ => true
  | _ :: _, [] => false
  | a :: pa, b :: tb => a == b && atHead pa tb

/-- Does `pat` occur anywhere in `cs`? (Python `pat in s`). -/
def hasSub (pat : List Char) : List Char → Bool
  | [] => pat.isEmpty
  | c :: rest => atHead pat (c :: rest) || hasSub pat rest

/-- Python `pat in s` on strings. -/
def strHasSub (pat s : String) : Bool :=
  hasSub pat.data s.data

/-- Python `s.startswith(pre)`. -/
def strStarts (pre s : String) : Bool :=
  atHead pre.data s.data

/-- ASCII lowercasing of one character. -/
def lowerChar (c : Char) : Char :=
  if 'A' ≤ c && c ≤ 'Z' then Char.ofNat (c.toNat + 32) else c

/-- Python `s.lower()` (the strings involved are ASCII). -/
def strLower (s : String) : String :=
  String.mk (s.data.map lowerChar)

/-- Outcome of one Playwright locator query: whether the first selected element
is visible, and the value `get_attribute` would return on it. -/
structure LocView where
  visible : Bool
  attr : Option String
  deriving DecidableEq, Repr

/-- The state of the rendered page, as observed through the browser capability:
one field per query the crawler performs.  `pdf_url` is the ad hoc attribute
`page.pdf_url` stashed by `_open_page_with_strategy` (`none` = attribute
absent).  `content` is `page.content()` (`none` = the call raised). -/
structure Page where
  pdf_url : Option String
  anchorPdf : LocView
  embedPdf : LocView
  downloadBtn : Bool
  clickUrl : Option String
  viewerVisible : Bool
  viewerFrame : LocView
  evalResult : Option String
  allLinks : List (Option String)
  content : Option String
  deriving DecidableEq, Repr

/-- Method 1 (lines 269-278): locator `a[href*=".pdf"]`, first element; if it
is visible and its `href` is truthy, return it. -/
def method1 (p : Page) : Option String :=
  if p.anchorPdf.visible then truthy p.anchorPdf.attr else none

/-- Method 2 (lines 281-290): locator `iframe[src*="pdf"], embed[type*="pdf"]`;
if visible and its `src` is truthy, return it. -/
def method2 (p : Page) : Option String :=
  if p.embedPdf.visible then truthy p.embedPdf.attr else none

/-- Method 3 (lines 293-305): if the download button is visible, click it and
return `page.url` afterwards.  `clickUrl` is the address after the click;
`none` models the click raising (caught by the `except`, chain continues). -/
def method3 (p : Page) : Option String :=
  if p.downloadBtn then p.clickUrl else none

/-- Method 4 (lines 308-321): viewer container; if visible, its inner iframe;
if that is visible and its `src` truthy, return it. -/
def method4 (p : Page) : Option String :=
  if p.viewerVisible then
    if p.viewerFrame.visible then truthy p.viewerFrame.attr else none
  else none

/-- Method 5 (lines 324-354): `page.evaluate(js_code)`.  The script runs in the
external JS engine; `evalResult` is the value it returns (`none` covers both a
`null` result and the call raising — either way the chain continues). -/
def method5 (p : Page) : Option String :=
  truthy p.evalResult

/-- Line 362: `href and ('pdf' in href.lower() or 'download' in href.lower())`. -/
def linkHit (href : String) : Bool :=
  !(href == "") && (strHasSub "pdf" (strLower href) || strHasSub "download" (strLower href))

/-- Method 6 (lines 357-366): walk every `a[href]` element in order and return
the first href that is truthy and mentions pdf/download. -/
def method6 : List (Option String) → Option String
  | [] => none
  | none :: rest => method6 rest
  | some href :: rest => if linkHit href then some href else method6 rest

/-- The heuristic chain of `_get_pdf_url` after the stash check: methods 1-6 in
textual order, first `some` wins.  The second component instruments the run
with the zero-based indices of the heuristics that were evaluated. -/
def heurChain (p : Page) : Option String × List Nat :=
  match method1 p with
  | some u => (some u, [0])
  | none =>
  match method2 p with
  | some u => (some u, [0, 1])
  | none =>
  match method3 p with
  | some u => (some u, [0, 1, 2])
  | none =>
  match method4 p with
  | some u => (some u, [0, 1, 2, 3])
  | none =>
  match method5 p with
  | some u => (some u, [0, 1, 2, 3, 4])
  | none =>
  match method6 p.allLinks with
  | some u => (some u, [0, 1, 2, 3, 4, 5])
  | none => (none, [0, 1, 2, 3, 4, 5])

/-- `IssuuCrawler._get_pdf_url` (lines 252-369), instrumented with the list of
heuristic indices evaluated.  Lines 262-264: if the stashed `page.pdf_url`
attribute exists and is truthy it is returned unchanged, before any heuristic. -/
def getPdfUrlT (p : Page) : Option String × List Nat :=
  match truthy p.pdf_url with
  | some u => (some u, [])
  | none => heurChain p

/-- `IssuuCrawler._get_pdf_url`: the returned link only. -/
def getPdfUrl (p : Page) : Option String :=
  (getPdfUrlT p).1

/-- The double-quote character. -/
def qD : Char := Char.ofNat 34

/-- The single-quote character. -/
def qS : Char := Char.ofNat 39

/-- The character class excluded by `[^\s"\']` in the pattern of line 225:
ASCII whitespace (Python `\s`), double quote, single quote. -/
def isDelim (c : Char) : Bool :=
  c == ' ' || c == Char.ofNat 9 || c == Char.ofNat 10 || c == Char.ofNat 13 ||
  c == Char.ofNat 11 || c == Char.ofNat 12 || c == qD || c == qS

/-- Is `.pdf` at offset `m` of the run? -/
def dotPdfAt (r : List Char) (m : Nat) : Bool :=
  atHead ['.', 'p', 'd', 'f'] (r.drop m)

/-- Greedy backtracking of `[^\s"\']+\.pdf` over the maximal non-delimiter run
`r`: the largest `m ≥ 1` (at least one character feeds the `+` group) such
that `.pdf` sits at offset `m`. -/
def bestSplit (r : List Char) : Option Nat :=
  ((List.range (r.length + 1)).filter (fun m => decide (1 ≤ m) && dotPdfAt r m)).getLast?

/-- Finish a match of `https?://[^\s"\']+\.pdf` once the scheme (`k` chars) has
matched at the head of `cs`. -/
def matchSchemeRun (cs : List Char) (k : Nat) : Option String :=
  let r := (cs.drop k).takeWhile (fun c => !isDelim c)
  match bestSplit r with
  | some m => some (String.mk (cs.take k ++ r.take (m + 4)))
  | none => none

/-- One attempt of the pattern `https?://[^\s"\']+\.pdf` anchored at the head
of `cs` (`https?` is greedy: the `s` branch is preferred). -/
def matchPdfAt (cs : List Char) : Option String :=
  if atHead ( "https://").data cs then matchSchemeRun cs 8
  else if atHead ( "http://").data cs then matchSchemeRun cs 7
  else none

/-- Line 225: `re.findall(r'https?://[^\s"\']+\.pdf', page_content)`, first
match (line 228 returns `pdf_urls[0]`): scan positions left to right. -/
def scanPdf : List Char → Option String
  | [] => none
  | c :: rest =>
    match matchPdfAt (c :: rest) with
    | some s => some s
    | none => scanPdf rest

/-- The literal before the capture of the pattern on line 232. -/
def docIdPat : List Char := ( "\"documentId\":\"").data

/-- One attempt of `"documentId":"([^"]+)"` anchored at the head of `cs`. -/
def matchDocIdAt (cs : List Char) : Option String :=
  if atHead docIdPat cs then
    let rest := cs.drop docIdPat.length
    let cap := rest.takeWhile (fun c => c != qD)
    if cap.isEmpty then none
    else
      match rest.drop cap.length with
      | c :: _ => if c == qD then some (String.mk cap) else none
      | [] => none
  else none

/-- Line 232: `re.search(r'"documentId":"([^"]+)"', page_content)`: first
position where the pattern matches, returning the capture. -/
def scanDocId : List Char → Option String
  | [] => none
  | c :: rest =>
    match matchDocIdAt (c :: rest) with
    | some s => some s
    | none => scanDocId rest

/-- Quote class `["\']` of the pattern on line 240. -/
def isQuote (c : Char) : Bool := c == qD || c == qS

/-- The class `[a-z-]` under `re.IGNORECASE`. -/
def isDashAlpha (c : Char) : Bool := c.isAlpha || c == '-'

/-- Case-insensitive head match: `pat` is given lowercase. -/
def atHeadCI : List Char → List Char → Bool
  | [], _ => true
  | _ :: _, [] => false
  | a :: pa, b :: tb => a == lowerChar b && atHeadCI pa tb

/-- One attempt of `data-[a-z-]+url=["\']([^"\']+)["\']` (IGNORECASE) anchored
at the head of `cs`: since `=` is outside `[a-z-]`, the literal `url` can only
sit at the very end of the maximal `[a-z-]` run, which must then be at least 4
characters long.  Returns the capture and the total number of characters the
match consumed. -/
def matchDataAt (cs : List Char) : Option (String × Nat) :=
  if atHeadCI ( "data-").data cs then
    let afterDash := cs.drop 5
    let run := afterDash.takeWhile isDashAlpha
    if decide (4 ≤ run.length) && atHeadCI ['u', 'r', 'l'] (run.drop (run.length - 3)) then
      match afterDash.drop run.length with
      | e :: afterEq =>
        if e == '=' then
          match afterEq with
          | q1 :: afterQ1 =>
            if isQuote q1 then
              let cap := afterQ1.takeWhile (fun c => !isQuote c)
              if cap.isEmpty then none
              else
                match afterQ1.drop cap.length with
                | q2 :: _ =>
                  if isQuote q2 then some (String.mk cap, 5 + run.length + 2 + cap.length + 1)
                  else none
                | [] => none
            else none
          | [] => none
        else none
      | [] => none
    else none
  else none

/-- Does a captured data-attribute URL qualify (line 242)? -/
def dataUrlHit (u : String) : Bool :=
  strHasSub "pdf" (strLower u) || strHasSub "download" (strLower u)

/-- Lines 240-244: `re.findall(r'data-[a-z-]+url=["\']([^"\']+)["\']', ...
re.IGNORECASE)` followed by the loop returning the first capture that mentions
pdf/download.  Matches are non-overlapping, so after a non-qualifying match the
scan resumes at the end of that match. -/
def scanDataUrlAux : Nat → List Char → Option String
  | 0, _ => none
  | _ + 1, [] => none
  | fuel + 1, c :: rest =>
    match matchDataAt (c :: rest) with
    | none => scanDataUrlAux fuel rest
    | some (cap, used) =>
      if dataUrlHit cap then some cap
      else scanDataUrlAux fuel (rest.drop (used - 1))

/-- Entry point of the data-attribute scan.  The fuel equals the text length;
every step strictly shortens the text, so the fuel never runs out on a
reachable call and the scan is the plain left-to-right one. -/
def scanDataUrl (cs : List Char) : Option String :=
  scanDataUrlAux cs.length cs

/-- `IssuuCrawler._extract_pdf_url_from_dom` (lines 208-250): the timeout
recovery probe.  `page.content()` raising (outer `except`) is `content = none`
and yields `None`; otherwise the three pattern scans run in order. -/
def extractPdfUrlFromDom (p : Page) : Option String :=
  match p.content with
  | none => none
  | some c =>
    match scanPdf c.data with
    | some u => some u
    | none =>
      match scanDocId c.data with
      | some d => some ( "https://issuu.com/api/v0/document/" ++ d)
      | none => scanDataUrl c.data

/-- The six extraction heuristics by zero-based priority index:
0 DirectAnchor, 1 EmbeddedViewerFrame, 2 ClickTriggeredDownload,
3 ViewerContainerFrame, 4 ScriptEvaluatedState, 5 BroadLinkScan. -/
def heurAt (k : Nat) (p : Page) : Option String :=
  match k with
  | 0 => method1 p
  | 1 => method2 p
  | 2 => method3 p
  | 3 => method4 p
  | 4 => method5 p
  | 5 => method6 p.allLinks
  | _ => none

/-- Outcome of one `page.goto(url, wait_until=strategy)` call, as the `try` of
lines 168-204 distinguishes them: success, `PlaywrightTimeoutError`, or any
other exception. -/
inductive NavOutcome where
  | ok
  | timeout
  | err
  deriving DecidableEq, Repr

/-- The browser-side behaviour of one escalator run: for each strategy index,
the outcome of the navigation, and the page state an extraction probe would
observe right after that strategy timed out. -/
structure NavEnv where
  nav : Nat → NavOutcome
  probePage : Nat → Page

/-- Result of `_open_page_with_strategy`: `True` with the value the function
stored into `page.pdf_url` on the recovery path (`none` when navigation simply
succeeded and nothing was stashed), or `False`. -/
inductive LoadResult where
  | loaded (stash : Option String)
  | failed
  deriving DecidableEq, Repr

/-- The `for strategy_index, strategy in enumerate(WAIT_STRATEGIES)` loop of
lines 164-206.  `i` is the current index, the list holds the remaining
strategies (so `rest.isEmpty` is `strategy_index == len(WAIT_STRATEGIES) - 1`).
The second component records, in order, the indices of the strategies whose
navigation was started.  An empty strategy list falls through to line 206. -/
def openLoop (env : NavEnv) : Nat → List String → LoadResult × List Nat
  | _, [] => (.failed, [])
  | i, _s :: rest =>
    match env.nav i with
    | .ok => (.loaded none, [i])
    | .timeout =>
      match truthy (extractPdfUrlFromDom (env.probePage i)) with
      | some u => (.loaded (some u), [i])
      | none =>
        if rest.isEmpty then (.failed, [i])
        else ((openLoop env (i + 1) rest).1, i :: (openLoop env (i + 1) rest).2)
    | .err =>
      if rest.isEmpty then (.failed, [i])
      else ((openLoop env (i + 1) rest).1, i :: (openLoop env (i + 1) rest).2)

/-- The wait-strategy list of `config/crawler_config.py`, fastest first. -/
def WAIT_STRATEGIES : List String := [ "domcontentloaded", "load", "networkidle"]

/-- `IssuuCrawler._open_page_with_strategy` (lines 151-206), instrumented with
the list of strategy indices that were navigated. -/
def openPageWithStrategy (env : NavEnv) (strategies : List String) : LoadResult × List Nat :=
  openLoop env 0 strategies

/-- Splits `cs` at the first occurrence of `pat`: the part before it and the
part after it. -/
def splitAtSub (pat : List Char) : List Char → Option (List Char × List Char)
  | [] => if pat.isEmpty then some ([], []) else none
  | c :: rest =>
    if atHead pat (c :: rest) then some ([], (c :: rest).drop pat.length)
    else
      match splitAtSub pat rest with
      | some (before, after) => some (c :: before, after)
      | none => none

/-- Model of the stdlib call `urllib.parse.urljoin(url, pdf_url)` restricted to
the only inputs `download_pdf` feeds it (line 535 guards `pdf_url` starting
with a slash): `//host/p` keeps only the scheme of the base, `/p` keeps scheme
and network location of the base.  A base without a scheme separator yields the
relative reference itself. -/
def urljoinSlash (base rel : String) : String :=
  match splitAtSub ( "://").data base.data with
  | none => rel
  | some (scheme, afterScheme) =>
    if strStarts "//" rel then String.mk scheme ++ ":" ++ rel
    else
      String.mk scheme ++ "://" ++ String.mk (afterScheme.takeWhile (fun c => c != '/')) ++ rel

/-- Lines 534-537: only a URL starting with `/` is converted to absolute form;
everything else is passed on unchanged. -/
def normalizeUrl (base u : String) : String :=
  if strStarts "/" u then urljoinSlash base u else u

/-- A URL with a scheme separator is absolute; the extracted candidates the
claims are about are plain `https?://` URLs or scheme-less relative ones. -/
def isAbsoluteUrl (u : String) : Bool :=
  strHasSub "://" u

/-- The external behaviour governing one attempt of `download_pdf`: whether the
attempt body raises an exception that escapes to the handlers of lines 554-559
(modelled as raising on entry), the navigation environment of the escalator,
the page state when `_get_pdf_url` runs after a successful load (its `pdf_url`
field is overridden by whatever the escalator stashed — a fresh page has none),
and the result of `_download_file` per candidate URL. -/
structure AttemptSpec where
  raises : Bool
  env : NavEnv
  finalPage : Page
  downloadOk : String → Bool

/-- How one iteration of the retry loop (lines 492-559) ends. -/
inductive BodyResult where
  | raised
  | loadFail
  | noUrl
  | dlFail (u : String)
  | dlOk (u : String)
  deriving DecidableEq, Repr

/-- The body of one retry iteration: escalate the page load (line 522);
on failure `continue` (line 527); otherwise extract (line 531), normalize
(lines 534-537) and download (line 542). -/
def attemptBody (url : String) (S : List String) (sp : AttemptSpec) : BodyResult :=
  if sp.raises then .raised
  else
    match (openPageWithStrategy sp.env S).1 with
    | .failed => .loadFail
    | .loaded st =>
      match truthy (getPdfUrl { sp.finalPage with pdf_url := st }) with
      | none => .noUrl
      | some u =>
        if sp.downloadOk (normalizeUrl url u) then .dlOk (normalizeUrl url u)
        else .dlFail (normalizeUrl url u)

/-- Did this attempt end in a successful download? -/
def attemptSucceeds (url : String) (S : List String) (sp : AttemptSpec) : Bool :=
  match attemptBody url S sp with
  | .dlOk _ => true
  | _ => false

/-- Does the inter-attempt wait of lines 561-565 run after this body outcome
(assuming further attempts remain)?  The `continue` of line 527 jumps straight
to the next iteration, skipping the wait; a successful download returns at
line 548 before reaching it. -/
def backoffAfter : BodyResult → Bool
  | .loadFail => false
  | .dlOk _ => false
  | _ => true

/-- Observable outcome of a whole `download_pdf` call: how many loop
iterations ran (each begins with the pre-attempt `_random_delay` of line 493),
how many inter-attempt backoff waits (lines 561-565) ran, the URLs handed to
`_download_file` in order, and the returned boolean. -/
structure RunTrace where
  attempts : Nat
  backoffs : Nat
  downloads : List String
  result : Bool
  deriving DecidableEq, Repr

/-- The retry loop of lines 487-565: `i` is the zero-based attempt index,
the second argument the number of iterations still allowed (`0 < n` after
removing the current one is `attempt < self.max_retries`). -/
def runAttempts (url : String) (S : List String) (specs : Nat → AttemptSpec) :
    Nat → Nat → RunTrace
  | _, 0 => ⟨0, 0, [], false⟩
  | i, n + 1 =>
    match attemptBody url S (specs i) with
    | .dlOk u => ⟨1, 0, [u], true⟩
    | .loadFail =>
      let r := runAttempts url S specs (i + 1) n
      ⟨r.attempts + 1, r.backoffs, r.downloads, r.result⟩
    | .raised =>
      let r := runAttempts url S specs (i + 1) n
      ⟨r.attempts + 1, r.backoffs + (if 0 < n then 1 else 0), r.downloads, r.result⟩
    | .noUrl =>
      let r := runAttempts url S specs (i + 1) n
      ⟨r.attempts + 1, r.backoffs + (if 0 < n then 1 else 0), r.downloads, r.result⟩
    | .dlFail u =>
      let r := runAttempts url S specs (i + 1) n
      ⟨r.attempts + 1, r.backoffs + (if 0 < n then 1 else 0), u :: r.downloads, r.result⟩

/-- `IssuuCrawler.download_pdf` (lines 467-572): `range(1, max_retries + 1)`
runs `max(max_retries, 0)` iterations, then line 572 returns `False`. -/
def downloadPdf (url : String) (S : List String) (specs : Nat → AttemptSpec)
    (maxRetries : Int) : RunTrace :=
  runAttempts url S specs 0 maxRetries.toNat

/-- Outcome of `requests.get` on line 403, as the handlers of lines 438-451
distinguish them: a response (with final status and body chunks), or an
exception raised by the transport before any response exists. -/
structure HttpResp where
  status : Nat
  chunks : List String
  deriving DecidableEq, Repr

/-- The `requests.get` call either yields a response or raises. -/
inductive FetchOutcome where
  | resp (r : HttpResp)
  | proxyError
  | timeoutError
  | requestError
  deriving DecidableEq, Repr

/-- Result of `_download_file`: the returned boolean and the content of the
file at `save_path` afterwards (`none` = no file). -/
structure DlResult where
  ok : Bool
  file : Option String
  deriving DecidableEq, Repr

/-- `IssuuCrawler._download_file` (lines 371-451).  `raise_for_status`
(line 410) raises `HTTPError` exactly for statuses 400-599, which the handler
of lines 445-448 turns into `False`; the destination file is only opened
(line 419, truncating) after that check, and the empty-chunk guard of line 421
drops empty chunks.  Local writes are modelled as succeeding. -/
def downloadFile (fetch : FetchOutcome) (fileBefore : Option String) : DlResult :=
  match fetch with
  | .proxyError => ⟨false, fileBefore⟩
  | .timeoutError => ⟨false, fileBefore⟩
  | .requestError => ⟨false, fileBefore⟩
  | .resp r =>
    if 400 ≤ r.status ∧ r.status < 600 then ⟨false, fileBefore⟩
    else ⟨true, some (String.join (r.chunks.filter (fun c => !(c == ""))))⟩

/-- A locator query that selects nothing. -/
def locNone : LocView := ⟨false, none⟩

/-- A page on which every query comes back empty. -/
def emptyPage : Page :=
  { pdf_url := none, anchorPdf := locNone, embedPdf := locNone, downloadBtn := false,
    clickUrl := none, viewerVisible := false, viewerFrame := locNone, evalResult := none,
    allLinks := [], content := none }

/-- A page carrying a stashed recovery URL and, at the same time, a visible
direct-anchor match with a different URL. -/
def stashAnchorPage : Page :=
  { emptyPage with
    pdf_url := some "https://stash.example/s.pdf",
    anchorPdf := ⟨true, some "https://anchor.example/a.pdf"⟩ }

/-- A page on which both DirectAnchor and EmbeddedViewerFrame match. -/
def anchorEmbedPage : Page :=
  { emptyPage with
    anchorPdf := ⟨true, some "https://a.example/direct.pdf"⟩,
    embedPdf := ⟨true, some "https://e.example/viewer.pdf"⟩ }

/-- A page with no matching element for any heuristic whose serialized content
contains a bare `.pdf` URL. -/
def bareContentPage : Page :=
  { emptyPage with content := some "nothing matches but https://cdn.example.com/file.pdf is in the text" }

/-- A page whose only hit is a relative DirectAnchor href. -/
def relAnchorPage : Page :=
  { emptyPage with anchorPdf := ⟨true, some "doc.pdf"⟩ }

/-- Navigation always succeeds immediately, but the loaded page carries no
extractable link and no download ever succeeds. -/
def okNoUrlSpec : AttemptSpec :=
  { raises := false, env := ⟨fun _ => .ok, fun _ => emptyPage⟩,
    finalPage := emptyPage, downloadOk := fun _ => false }

/-- Every navigation fails with a non-timeout error, so every attempt ends in
a page-load failure. -/
def allErrSpec : AttemptSpec :=
  { raises := false, env := ⟨fun _ => .err, fun _ => emptyPage⟩,
    finalPage := emptyPage, downloadOk := fun _ => false }

/-- Navigation errors at strategy 0 and succeeds at strategy 1; the loaded
page has no extractable link. -/
def errThenOkSpec : AttemptSpec :=
  { raises := false,
    env := ⟨fun i => if i == 0 then .err else .ok, fun _ => emptyPage⟩,
    finalPage := emptyPage, downloadOk := fun _ => false }

/-- Navigation succeeds and DirectAnchor yields a relative href; the download
is then attempted (and fails). -/
def relAnchorSpec : AttemptSpec :=
  { raises := false, env := ⟨fun _ => .ok, fun _ => emptyPage⟩,
    finalPage := relAnchorPage, downloadOk := fun _ => false }

/-- Navigation succeeds and DirectAnchor yields an absolute URL whose download
succeeds. -/
def goodAnchorSpec : AttemptSpec :=
  { raises := false, env := ⟨fun _ => .ok, fun _ => emptyPage⟩,
    finalPage := { emptyPage with anchorPdf := ⟨true, some "https://h.example/x.pdf"⟩ },
    downloadOk := fun _ => true }

/-- Attempt 1 fails at page load, attempts 0 and 2 fail after a successful
load with no extractable link. -/
def mixedFailSpecs : Nat → AttemptSpec :=
  fun i => if i == 1 then allErrSpec else okNoUrlSpec

/-- Every navigation times out and every probe sees the bare-URL page. -/
def timeoutBareEnv : NavEnv :=
  ⟨fun _ => .timeout, fun _ => bareContentPage⟩

/-- A navigation step after which the escalator moves on to the next strategy:
a non-timeout error, or a timeout whose recovery probe found nothing truthy. -/
def stepContinues (env : NavEnv) (k : Nat) : Prop :=
  env.nav k = .err ∨
    (env.nav k = .timeout ∧ truthy (extractPdfUrlFromDom (env.probePage k)) = none)

instance (env : NavEnv) (k : Nat) : Decidable (stepContinues env k) := by
  unfold stepContinues
  infer_instance

/-- The list of `n` consecutive naturals starting at `i` (a navigation trace
that went from strategy `i` through strategy `i + n - 1`). -/
def consecFrom : Nat → Nat → List Nat
  | _, 0 => []
  | i, n + 1 => i :: consecFrom (i + 1) n

/-- If strategy `k + 1` was navigated by the loop started at index `i ≤ k`,
then step `k` neither succeeded nor had a successful recovery probe. -/
theorem openLoop_mem_succ (env : NavEnv) :
    ∀ (ss : List String) (i k : Nat), i ≤ k → (k + 1) ∈ (openLoop env i ss).2 →
      stepContinues env k := by
  intro ss
  induction ss with
  | nil =>
    intro i k hik hmem
    simp [openLoop] at hmem
  | cons s rest ih =>
    intro i k hik hmem
    simp only [openLoop] at hmem
    cases hnav : env.nav i with
    | ok =>
      rw [hnav] at hmem
      simp at hmem
      exact absurd hmem (by omega)
    | timeout =>
      rw [hnav] at hmem
      cases hpr : truthy (extractPdfUrlFromDom (env.probePage i)) with
      | some u =>
        rw [hpr] at hmem
        simp at hmem
        exact absurd hmem (by omega)
      | none =>
        rw [hpr] at hmem
        by_cases hre : rest.isEmpty
        · simp [hre] at hmem
          exact absurd hmem (by omega)
        · simp [hre] at hmem
          rcases hmem with h1 | h2
          · exact absurd h1 (by omega)
          · rcases Nat.eq_or_lt_of_le hik with heq | hlt2
            · subst heq
              exact Or.inr ⟨hnav, hpr⟩
            · exact ih (i + 1) k hlt2 h2
    | err =>
      rw [hnav] at hmem
      by_cases hre : rest.isEmpty
      · simp [hre] at hmem
        exact absurd hmem (by omega)
      · simp [hre] at hmem
        rcases hmem with h1 | h2
        · exact absurd h1 (by omega)
        · rcases Nat.eq_or_lt_of_le hik with heq | hlt2
          · subst heq
            exact Or.inl hnav
          · exact ih (i + 1) k hlt2 h2

/-- C9: if a timeout-recovery extraction probe stored a (truthy) URL on the
page object, `_get_pdf_url` returns that stored URL unchanged and evaluates
none of the six extraction heuristics — the stashed probe result takes
priority over every heuristic, including DirectAnchor. -/
theorem C9_stash_priority (p : Page) (u : String) (h : p.pdf_url = some u) (hu : u ≠ "") :
    getPdfUrlT p = (some u, []) := by
  simp [getPdfUrlT, truthy, h, hu]

/-- C9 witness: a page whose stash and DirectAnchor would both match; the
stash wins and the evaluated-heuristics trace is empty. -/
theorem C9_stash_priority_witness :
    stashAnchorPage.pdf_url = some "https://stash.example/s.pdf" ∧
    "https://stash.example/s.pdf" ≠ "" ∧
    getPdfUrlT stashAnchorPage = (some "https://stash.example/s.pdf", []) :=
  ⟨rfl, by decide, C9_stash_priority stashAnchorPage _ rfl (by decide)⟩

/-- C1 counterexample: the claim quantifies over every page, but on a page
carrying a stashed `page.pdf_url` the function returns the stash, not the
result of the lowest-index matching heuristic (DirectAnchor matches here with
a different URL). -/
theorem C1_counterexample :
    getPdfUrl stashAnchorPage = some "https://stash.example/s.pdf" ∧
    (heurChain stashAnchorPage).1 = some "https://anchor.example/a.pdf" ∧
    getPdfUrl stashAnchorPage ≠ (heurChain stashAnchorPage).1 := by
  decide

/-- C1 amended: on every page with no truthy stashed `pdf_url`, `_get_pdf_url`
returns the result of the lowest-index heuristic that matches, trying them in
the fixed order DirectAnchor (0), EmbeddedViewerFrame (1),
ClickTriggeredDownload (2), ViewerContainerFrame (3), ScriptEvaluatedState (4),
BroadLinkScan (5), even if a higher-index heuristic would also match. -/
theorem C1_priority (p : Page) (k : Nat) (u : String)
    (hstash : truthy p.pdf_url = none) (hk6 : k < 6)
    (hk : heurAt k p = some u) (hlt : ∀ j, j < k → heurAt j p = none) :
    getPdfUrl p = some u := by
  interval_cases k
  · simp only [heurAt] at hk
    simp [getPdfUrl, getPdfUrlT, hstash, heurChain, hk]
  · have h0 := hlt 0 (by omega)
    simp only [heurAt] at hk h0
    simp [getPdfUrl, getPdfUrlT, hstash, heurChain, h0, hk]
  · have h0 := hlt 0 (by omega)
    have h1 := hlt 1 (by omega)
    simp only [heurAt] at hk h0 h1
    simp [getPdfUrl, getPdfUrlT, hstash, heurChain, h0, h1, hk]
  · have h0 := hlt 0 (by omega)
    have h1 := hlt 1 (by omega)
    have h2 := hlt 2 (by omega)
    simp only [heurAt] at hk h0 h1 h2
    simp [getPdfUrl, getPdfUrlT, hstash, heurChain, h0, h1, h2, hk]
  · have h0 := hlt 0 (by omega)
    have h1 := hlt 1 (by omega)
    have h2 := hlt 2 (by omega)
    have h3 := hlt 3 (by omega)
    simp only [heurAt] at hk h0 h1 h2 h3
    simp [getPdfUrl, getPdfUrlT, hstash, heurChain, h0, h1, h2, h3, hk]
  · have h0 := hlt 0 (by omega)
    have h1 := hlt 1 (by omega)
    have h2 := hlt 2 (by omega)
    have h3 := hlt 3 (by omega)
    have h4 := hlt 4 (by omega)
    simp only [heurAt] at hk h0 h1 h2 h3 h4
    simp [getPdfUrl, getPdfUrlT, hstash, heurChain, h0, h1, h2, h3, h4, hk]

/-- C1 witness: a page where both DirectAnchor and EmbeddedViewerFrame match;
the DirectAnchor result is returned. -/
theorem C1_priority_witness :
    truthy anchorEmbedPage.pdf_url = none ∧
    heurAt 0 anchorEmbedPage = some "https://a.example/direct.pdf" ∧
    heurAt 1 anchorEmbedPage = some "https://e.example/viewer.pdf" ∧
    getPdfUrl anchorEmbedPage = some "https://a.example/direct.pdf" :=
  ⟨by decide, by decide, by decide,
    C1_priority anchorEmbedPage 0 _ (by decide) (by omega) (by decide)
      (fun j hj => absurd hj (Nat.not_lt_zero j))⟩

/-- C6 counterexample: 304 is a non-2xx status, yet `raise_for_status` accepts
it, so `_download_file` reports success and creates an (empty) file at the
destination — the claim fails for 3xx final statuses. -/
theorem C6_counterexample :
    (299 < 304 ∨ 304 < 200) ∧ downloadFile (.resp ⟨304, []⟩) none = ⟨true, some ""⟩ := by
  decide

/-- C6 amended: a response whose status lies in 400..599 — exactly the
statuses `raise_for_status` rejects — makes `_download_file` return failure
with the destination file never opened, hence exactly as it was before the
call (no partial or placeholder file is created or left behind). -/
theorem C6_status_failure (r : HttpResp) (before : Option String)
    (h4 : 400 ≤ r.status) (h6 : r.status < 600) :
    downloadFile (.resp r) before = ⟨false, before⟩ := by
  simp [downloadFile, h4, h6]

/-- C6 witness: a 404 response with a body is rejected and no file appears. -/
theorem C6_status_failure_witness :
    (400 ≤ 404 ∧ 404 < 600) ∧ downloadFile (.resp ⟨404, [ "err"]⟩) none = ⟨false, none⟩ :=
  ⟨by decide, C6_status_failure ⟨404, [ "err"]⟩ none (by decide) (by decide)⟩

/-- C10: with a zero or negative retry limit, `range(1, max_retries + 1)` is
empty, so `download_pdf` performs no attempt at all — no pre-attempt delay, no
navigation, no extraction, no download, no backoff — and returns `False`,
leaving the destination untouched. -/
theorem C10_no_attempts (url : String) (S : List String) (specs : Nat → AttemptSpec)
    (m : Int) (h : m ≤ 0) :
    downloadPdf url S specs m = ⟨0, 0, [], false⟩ := by
  unfold downloadPdf
  rw [Int.toNat_of_nonpos h]
  rfl

/-- C10 witness at `max_retries = -1`. -/
theorem C10_no_attempts_witness :
    (-1 : Int) ≤ 0 ∧
    downloadPdf "https://issuu.com/d" WAIT_STRATEGIES (fun _ => goodAnchorSpec) (-1) =
      ⟨0, 0, [], false⟩ :=
  ⟨by decide, C10_no_attempts _ _ _ _ (by decide)⟩

/-- C2: for every strategy list and every page behaviour, the escalator never
navigates with strategy k+1 after strategy k succeeded — if index k+1 appears
in the navigation trace, then at strategy k navigation did not succeed and no
extraction probe at strategy k returned a URL. -/
theorem C2_early_exit (env : NavEnv) (S : List String) (k : Nat)
    (h : (k + 1) ∈ (openPageWithStrategy env S).2) :
    env.nav k ≠ .ok ∧
    ¬(env.nav k = .timeout ∧ truthy (extractPdfUrlFromDom (env.probePage k)) ≠ none) := by
  have hs := openLoop_mem_succ env S 0 k (Nat.zero_le k) h
  rcases hs with h1 | ⟨h2, h3⟩
  · constructor
    · simp [h1]
    · simp [h1]
  · constructor
    · simp [h2]
    · simp [h3]

/-- C2 witness: with errors everywhere, strategy 1 is navigated, and indeed
strategy 0 neither succeeded nor probed successfully. -/
theorem C2_early_exit_witness :
    (0 + 1) ∈ (openPageWithStrategy allErrSpec.env WAIT_STRATEGIES).2 ∧
    (allErrSpec.env.nav 0 ≠ .ok ∧
      ¬(allErrSpec.env.nav 0 = .timeout ∧
        truthy (extractPdfUrlFromDom (allErrSpec.env.probePage 0)) ≠ none)) :=
  ⟨by decide, C2_early_exit allErrSpec.env WAIT_STRATEGIES 0 (by decide)⟩

/-- C8 counterexample: a page on which no heuristic matches any element but
whose serialized content contains a bare `https://…/file.pdf` substring.
`_get_pdf_url` — the extraction chain run against a loaded page — returns
nothing on it; the content scan that would find the URL lives only in the
timeout-recovery probe `_extract_pdf_url_from_dom`. -/
theorem C8_counterexample :
    getPdfUrl bareContentPage = none ∧
    extractPdfUrlFromDom bareContentPage = some "https://cdn.example.com/file.pdf" := by
  decide

/-- C8 amended: the bare-URL content scan belongs to the timeout-recovery
probe.  When the first strategy's navigation times out and the scan of the
partially loaded content finds a bare `.pdf` URL, the escalator returns
success with that URL stashed, and `_get_pdf_url` then returns it through the
stash. -/
theorem C8_recovery_scan (env : NavEnv) (s : String) (rest : List String)
    (c u : String) (pg : Page)
    (hnav : env.nav 0 = .timeout)
    (hc : (env.probePage 0).content = some c)
    (hscan : scanPdf c.data = some u)
    (hu : u ≠ "") :
    (openPageWithStrategy env (s :: rest)).1 = .loaded (some u) ∧
    getPdfUrl { pg with pdf_url := some u } = some u := by
  have hex : extractPdfUrlFromDom (env.probePage 0) = some u := by
    simp [extractPdfUrlFromDom, hc, hscan]
  constructor
  · simp [openPageWithStrategy, openLoop, hnav, hex, truthy, hu]
  · simp [getPdfUrl, getPdfUrlT, truthy, hu]

/-- C8 witness: all-timeout navigation over the bare-URL page resolves to the
URL found by the content scan. -/
theorem C8_recovery_scan_witness :
    timeoutBareEnv.nav 0 = .timeout ∧
    scanPdf ( "nothing matches but https://cdn.example.com/file.pdf is in the text").data =
      some "https://cdn.example.com/file.pdf" ∧
    (openPageWithStrategy timeoutBareEnv WAIT_STRATEGIES).1 =
      .loaded (some "https://cdn.example.com/file.pdf") ∧
    getPdfUrl { emptyPage with pdf_url := some "https://cdn.example.com/file.pdf" } =
      some "https://cdn.example.com/file.pdf" := by
  have h := C8_recovery_scan timeoutBareEnv "domcontentloaded" [ "load", "networkidle"]
    ( "nothing matches but https://cdn.example.com/file.pdf is in the text")
    ( "https://cdn.example.com/file.pdf") emptyPage rfl rfl (by decide) (by decide)
  exact ⟨rfl, by decide, h.1, h.2⟩

/-- If steps `i … i + k - 1` all continue and navigation at `i + k` succeeds,
the loop returns plain success having navigated exactly strategies
`i … i + k`. -/
theorem openLoop_reach (env : NavEnv) :
    ∀ (ss : List String) (i k : Nat), k < ss.length →
      (∀ j, j < k → stepContinues env (i + j)) → env.nav (i + k) = .ok →
      openLoop env i ss = (.loaded none, consecFrom i (k + 1)) := by
  intro ss
  induction ss with
  | nil =>
    intro i k hk
    simp at hk
  | cons s rest ih =>
    intro i k hk hcont hok
    cases k with
    | zero =>
      simp only [Nat.add_zero] at hok
      simp [openLoop, hok, consecFrom]
    | succ k2 =>
      have hstep : stepContinues env i := by
        have := hcont 0 (by omega)
        simpa using this
      have hrest : k2 < rest.length := by
        simp at hk
        omega
      have hne : rest.isEmpty = false := by
        cases rest with
        | nil => simp at hrest
        | cons a b => rfl
      have hcont2 : ∀ j, j < k2 → stepContinues env (i + 1 + j) := by
        intro j hj
        have h := hcont (j + 1) (by omega)
        have heq : i + (j + 1) = i + 1 + j := by omega
        rwa [heq] at h
      have hok2 : env.nav (i + 1 + k2) = .ok := by
        have heq : i + (k2 + 1) = i + 1 + k2 := by omega
        rwa [heq] at hok
      have ihr := ih (i + 1) k2 hrest hcont2 hok2
      rcases hstep with h1 | ⟨h2, h3⟩
      · simp [openLoop, h1, hne, ihr, consecFrom]
      · simp [openLoop, h2, h3, hne, ihr, consecFrom]

/-- C5 amended: when navigation succeeds at strategy `k` (earlier strategies
having failed their navigations and probes), the escalator returns
immediately with exactly strategies `0 … k` navigated — and if the extraction
that `download_pdf` then runs against the loaded page resolves nothing, the
attempt ends in `noUrl` without the remaining strategies ever being tried.
The full strategy list is exhausted only when every navigation fails. -/
theorem C5_no_escalation_after_load (url : String) (S : List String) (sp : AttemptSpec)
    (k : Nat) (hk : k < S.length)
    (hcont : ∀ j, j < k → stepContinues sp.env j)
    (hok : sp.env.nav k = .ok)
    (hraise : sp.raises = false)
    (hext : truthy (getPdfUrl { sp.finalPage with pdf_url := none }) = none) :
    openPageWithStrategy sp.env S = (.loaded none, consecFrom 0 (k + 1)) ∧
    attemptBody url S sp = .noUrl := by
  have h1 : openLoop sp.env 0 S = (.loaded none, consecFrom 0 (k + 1)) := by
    apply openLoop_reach sp.env S 0 k hk
    · intro j hj
      simpa using hcont j hj
    · simpa using hok
  refine ⟨h1, ?_⟩
  simp [attemptBody, hraise, openPageWithStrategy, h1, hext]

/-- C5 counterexample: navigation succeeds at the first strategy but the
extraction resolves no URL; the run resolves nothing yet only 1 of the 3
strategies was ever navigated — the strategy list is not exhausted. -/
theorem C5_counterexample :
    attemptBody "https://issuu.com/d" WAIT_STRATEGIES okNoUrlSpec = .noUrl ∧
    (openPageWithStrategy okNoUrlSpec.env WAIT_STRATEGIES).2 = [0] ∧
    WAIT_STRATEGIES.length = 3 := by
  decide

/-- C5 witness: error at strategy 0, success at strategy 1, empty page:
exactly strategies 0 and 1 are navigated and the attempt ends in `noUrl`. -/
theorem C5_no_escalation_after_load_witness :
    openPageWithStrategy errThenOkSpec.env WAIT_STRATEGIES = (.loaded none, consecFrom 0 2) ∧
    attemptBody "https://issuu.com/d" WAIT_STRATEGIES errThenOkSpec = .noUrl :=
  C5_no_escalation_after_load "https://issuu.com/d" WAIT_STRATEGIES errThenOkSpec 1
    (by decide) (by decide) (by decide) rfl (by decide)

/-- Peeling one element off a filtered range: the head index 0 contributes
when the predicate holds there, the rest is the shifted filter. -/
theorem filterRangeSucc (p : Nat → Bool) (n : Nat) :
    ((List.range (n + 1)).filter p).length =
      (if p 0 then 1 else 0) + ((List.range n).filter (fun j => p (j + 1))).length := by
  rw [List.range_succ_eq_map, List.filter_cons]
  have hcomp : (List.range n).filter (p ∘ Nat.succ) =
      (List.range n).filter (fun j => p (j + 1)) := by
    apply List.filter_congr
    intro x hx
    rfl
  by_cases h0 : p 0
  · simp [h0, List.filter_map, hcomp, Nat.add_comm]
  · simp [h0, List.filter_map, hcomp]

/-- If attempt `i0 + i` is the first (relative to the start index `i0`) whose
body ends in a successful download, the retry loop returns `True` after
exactly `i + 1` iterations. -/
theorem runAttempts_first_success (url : String) (S : List String) (specs : Nat → AttemptSpec) :
    ∀ (n i0 i : Nat), i < n → attemptSucceeds url S (specs (i0 + i)) = true →
      (∀ j, j < i → attemptSucceeds url S (specs (i0 + j)) = false) →
      (runAttempts url S specs i0 n).result = true ∧
      (runAttempts url S specs i0 n).attempts = i + 1 := by
  intro n
  induction n with
  | zero =>
    intro i0 i hi
    omega
  | succ n2 ih =>
    intro i0 i hi hsucc hfail
    cases i with
    | zero =>
      simp only [Nat.add_zero] at hsucc
      unfold attemptSucceeds at hsucc
      cases hb : attemptBody url S (specs i0) with
      | dlOk u => simp [runAttempts, hb]
      | raised => rw [hb] at hsucc; simp at hsucc
      | loadFail => rw [hb] at hsucc; simp at hsucc
      | noUrl => rw [hb] at hsucc; simp at hsucc
      | dlFail u => rw [hb] at hsucc; simp at hsucc
    | succ i2 =>
      have h0 : attemptSucceeds url S (specs i0) = false := by
        have h := hfail 0 (by omega)
        simpa using h
      have hsucc2 : attemptSucceeds url S (specs (i0 + 1 + i2)) = true := by
        have heq : i0 + (i2 + 1) = i0 + 1 + i2 := by omega
        rwa [heq] at hsucc
      have hfail2 : ∀ j, j < i2 → attemptSucceeds url S (specs (i0 + 1 + j)) = false := by
        intro j hj
        have h := hfail (j + 1) (by omega)
        have heq : i0 + (j + 1) = i0 + 1 + j := by omega
        rwa [heq] at h
      have hrec := ih (i0 + 1) i2 (by omega) hsucc2 hfail2
      unfold attemptSucceeds at h0
      cases hb : attemptBody url S (specs i0) with
      | dlOk u => rw [hb] at h0; simp at h0
      | raised => simp [runAttempts, hb, hrec.1, hrec.2]
      | loadFail => simp [runAttempts, hb, hrec.1, hrec.2]
      | noUrl => simp [runAttempts, hb, hrec.1, hrec.2]
      | dlFail u => simp [runAttempts, hb, hrec.1, hrec.2]

/-- When every attempt fails, the loop runs all `n` iterations, returns
`False`, and backs off exactly once per non-final iteration whose body got
past page loading (the `continue` of line 527 skips the wait). -/
theorem runAttempts_all_fail (url : String) (S : List String) (specs : Nat → AttemptSpec) :
    ∀ (n i0 : Nat), (∀ j, j < n → attemptSucceeds url S (specs (i0 + j)) = false) →
      (runAttempts url S specs i0 n).result = false ∧
      (runAttempts url S specs i0 n).attempts = n ∧
      (runAttempts url S specs i0 n).backoffs =
        ((List.range n).filter
          (fun j => decide (j + 1 < n) &&
            backoffAfter (attemptBody url S (specs (i0 + j))))).length := by
  intro n
  induction n with
  | zero =>
    intro i0 hfail
    simp [runAttempts]
  | succ n2 ih =>
    intro i0 hfail
    have h0 : attemptSucceeds url S (specs i0) = false := by
      have h := hfail 0 (by omega)
      simpa using h
    have hfail2 : ∀ j, j < n2 → attemptSucceeds url S (specs (i0 + 1 + j)) = false := by
      intro j hj
      have h := hfail (j + 1) (by omega)
      have heq : i0 + (j + 1) = i0 + 1 + j := by omega
      rwa [heq] at h
    have hrec := ih (i0 + 1) hfail2
    have hfl : ((List.range (n2 + 1)).filter
        (fun j => decide (j + 1 < n2 + 1) &&
          backoffAfter (attemptBody url S (specs (i0 + j))))).length =
        (if decide (0 + 1 < n2 + 1) && backoffAfter (attemptBody url S (specs (i0 + 0)))
          then 1 else 0) +
        ((List.range n2).filter
          (fun j => decide (j + 1 < n2) &&
            backoffAfter (attemptBody url S (specs (i0 + 1 + j))))).length := by
      rw [filterRangeSucc
        (fun j => decide (j + 1 < n2 + 1) && backoffAfter (attemptBody url S (specs (i0 + j)))) n2]
      have hcg : ((List.range n2).filter
          (fun j => decide (j + 1 + 1 < n2 + 1) &&
            backoffAfter (attemptBody url S (specs (i0 + (j + 1)))))) =
          ((List.range n2).filter
          (fun j => decide (j + 1 < n2) &&
            backoffAfter (attemptBody url S (specs (i0 + 1 + j))))) := by
        apply List.filter_congr
        intro x hx
        have e1 : decide (x + 1 + 1 < n2 + 1) = decide (x + 1 < n2) :=
          decide_eq_decide.mpr (by omega)
        have e2 : i0 + (x + 1) = i0 + 1 + x := by omega
        rw [e1, e2]
      rw [hcg]
    unfold attemptSucceeds at h0
    cases hb : attemptBody url S (specs i0) with
    | dlOk u => rw [hb] at h0; simp at h0
    | raised =>
      refine ⟨?_, ?_, ?_⟩
      · simp [runAttempts, hb, hrec.1]
      · simp [runAttempts, hb, hrec.2.1]
      · have hR : (if (decide (0 + 1 < n2 + 1) &&
            backoffAfter (attemptBody url S (specs (i0 + 0)))) = true then 1 else 0) =
            (if 0 < n2 then 1 else 0) := by
          simp only [Nat.add_zero, hb, backoffAfter, Bool.and_true, decide_eq_true_eq]
          by_cases hn : 0 < n2
          · rw [if_pos (by omega), if_pos hn]
          · rw [if_neg (by omega), if_neg hn]
        rw [hfl, hR]
        simp only [runAttempts, hb]
        rw [hrec.2.2]
        omega
    | loadFail =>
      refine ⟨?_, ?_, ?_⟩
      · simp [runAttempts, hb, hrec.1]
      · simp [runAttempts, hb, hrec.2.1]
      · have hR : (if (decide (0 + 1 < n2 + 1) &&
            backoffAfter (attemptBody url S (specs (i0 + 0)))) = true then 1 else 0) = 0 := by
          simp [hb, backoffAfter]
        rw [hfl, hR]
        simp only [runAttempts, hb]
        rw [hrec.2.2]
        omega
    | noUrl =>
      refine ⟨?_, ?_, ?_⟩
      · simp [runAttempts, hb, hrec.1]
      · simp [runAttempts, hb, hrec.2.1]
      · have hR : (if (decide (0 + 1 < n2 + 1) &&
            backoffAfter (attemptBody url S (specs (i0 + 0)))) = true then 1 else 0) =
            (if 0 < n2 then 1 else 0) := by
          simp only [Nat.add_zero, hb, backoffAfter, Bool.and_true, decide_eq_true_eq]
          by_cases hn : 0 < n2
          · rw [if_pos (by omega), if_pos hn]
          · rw [if_neg (by omega), if_neg hn]
        rw [hfl, hR]
        simp only [runAttempts, hb]
        rw [hrec.2.2]
        omega
    | dlFail u =>
      refine ⟨?_, ?_, ?_⟩
      · simp [runAttempts, hb, hrec.1]
      · simp [runAttempts, hb, hrec.2.1]
      · have hR : (if (decide (0 + 1 < n2 + 1) &&
            backoffAfter (attemptBody url S (specs (i0 + 0)))) = true then 1 else 0) =
            (if 0 < n2 then 1 else 0) := by
          simp only [Nat.add_zero, hb, backoffAfter, Bool.and_true, decide_eq_true_eq]
          by_cases hn : 0 < n2
          · rw [if_pos (by omega), if_pos hn]
          · rw [if_neg (by omega), if_neg hn]
        rw [hfl, hR]
        simp only [runAttempts, hb]
        rw [hrec.2.2]
        omega

/-- C3: `download_pdf` makes at most `max_retries` attempts, and on the first
attempt whose `_download_file` call succeeds it returns `True` immediately —
no further attempt (hence no further navigation, extraction or download)
happens afterwards. -/
theorem C3_first_success_stops (url : String) (S : List String)
    (specs : Nat → AttemptSpec) (m : Int) (i : Nat)
    (h1 : i < m.toNat)
    (h2 : attemptSucceeds url S (specs i) = true)
    (h3 : ∀ j, j < i → attemptSucceeds url S (specs j) = false) :
    (downloadPdf url S specs m).result = true ∧
    (downloadPdf url S specs m).attempts = i + 1 ∧ i + 1 ≤ m.toNat := by
  have h := runAttempts_first_success url S specs m.toNat 0 i h1 (by simpa using h2)
    (fun j hj => by simpa using h3 j hj)
  exact ⟨h.1, h.2, by omega⟩

/-- C3 witness: the very first attempt downloads successfully under a limit of
three attempts; exactly one attempt runs. -/
theorem C3_first_success_stops_witness :
    attemptSucceeds "https://issuu.com/d" WAIT_STRATEGIES goodAnchorSpec = true ∧
    (downloadPdf "https://issuu.com/d" WAIT_STRATEGIES (fun _ => goodAnchorSpec) 3).result = true ∧
    (downloadPdf "https://issuu.com/d" WAIT_STRATEGIES (fun _ => goodAnchorSpec) 3).attempts = 0 + 1 ∧
    0 + 1 ≤ (3 : Int).toNat :=
  ⟨by decide, C3_first_success_stops "https://issuu.com/d" WAIT_STRATEGIES
    (fun _ => goodAnchorSpec) 3 0 (by decide) (by decide)
    (fun j hj => absurd hj (Nat.not_lt_zero j))⟩

/-- C7 counterexample: three attempts, each failing at page load; the
`continue` of line 527 skips the inter-attempt wait every time, so zero
backoffs occur — not the two the claim requires. -/
theorem C7_counterexample :
    (downloadPdf "https://issuu.com/d" WAIT_STRATEGIES (fun _ => allErrSpec) 3).result = false ∧
    (downloadPdf "https://issuu.com/d" WAIT_STRATEGIES (fun _ => allErrSpec) 3).attempts = 3 ∧
    (downloadPdf "https://issuu.com/d" WAIT_STRATEGIES (fun _ => allErrSpec) 3).backoffs = 0 ∧
    ¬(downloadPdf "https://issuu.com/d" WAIT_STRATEGIES (fun _ => allErrSpec) 3).backoffs = 2 := by
  decide

/-- C7 amended: when every attempt fails, `download_pdf` runs all
`max_retries` attempts, returns the failure outcome (`False`), and one backoff
wait occurs per non-final failed attempt that progressed past page loading;
an attempt that fails at page load reaches the `continue` of line 527 and
triggers no backoff, and the final attempt never does. -/
theorem C7_backoff_count (url : String) (S : List String)
    (specs : Nat → AttemptSpec) (m : Int)
    (hfail : ∀ j, j < m.toNat → attemptSucceeds url S (specs j) = false) :
    (downloadPdf url S specs m).result = false ∧
    (downloadPdf url S specs m).attempts = m.toNat ∧
    (downloadPdf url S specs m).backoffs =
      ((List.range m.toNat).filter
        (fun j => decide (j + 1 < m.toNat) &&
          backoffAfter (attemptBody url S (specs j)))).length := by
  have h := runAttempts_all_fail url S specs m.toNat 0 (fun j hj => by simpa using hfail j hj)
  refine ⟨h.1, h.2.1, ?_⟩
  unfold downloadPdf
  rw [h.2.2]
  apply congrArg
  apply List.filter_congr
  intro x hx
  rw [Nat.zero_add]

/-- C7 witness: three failing attempts, the middle one failing at page load:
exactly one backoff occurs (after attempt 1), none after the load-failed
attempt 2 and none after the final attempt. -/
theorem C7_backoff_count_witness :
    attemptSucceeds "https://issuu.com/d" WAIT_STRATEGIES (mixedFailSpecs 0) = false ∧
    attemptSucceeds "https://issuu.com/d" WAIT_STRATEGIES (mixedFailSpecs 1) = false ∧
    attemptSucceeds "https://issuu.com/d" WAIT_STRATEGIES (mixedFailSpecs 2) = false ∧
    ((downloadPdf "https://issuu.com/d" WAIT_STRATEGIES mixedFailSpecs 3).result = false ∧
      (downloadPdf "https://issuu.com/d" WAIT_STRATEGIES mixedFailSpecs 3).attempts = (3 : Int).toNat ∧
      (downloadPdf "https://issuu.com/d" WAIT_STRATEGIES mixedFailSpecs 3).backoffs =
        ((List.range (3 : Int).toNat).filter
          (fun j => decide (j + 1 < (3 : Int).toNat) &&
            backoffAfter (attemptBody "https://issuu.com/d" WAIT_STRATEGIES
              (mixedFailSpecs j)))).length) :=
  ⟨by decide, by decide, by decide,
    C7_backoff_count "https://issuu.com/d" WAIT_STRATEGIES mixedFailSpecs 3 (by decide)⟩

/-- C4 counterexample: a DirectAnchor href that is a relative reference
without a leading slash is returned by `_get_pdf_url` unnormalized and handed
to `_download_file` as is — a non-absolute URL reaches the Downloader. -/
theorem C4_counterexample :
    getPdfUrl { relAnchorPage with pdf_url := none } = some "doc.pdf" ∧
    (downloadPdf "https://issuu.com/docs/x" WAIT_STRATEGIES (fun _ => relAnchorSpec) 1).downloads =
      [ "doc.pdf"] ∧
    isAbsoluteUrl "doc.pdf" = false := by
  decide

/-- C4 amended: normalization happens in `download_pdf` after the extractor
returns, not inside `_get_pdf_url`, and covers only URLs starting with `/`
(joined against the original source URL); any other URL — including relative
references like `doc.pdf` — is passed to the Downloader unchanged. -/
theorem C4_normalization (url : String) (S : List String) (sp : AttemptSpec)
    (st : Option String) (u : String)
    (hraise : sp.raises = false)
    (hload : (openPageWithStrategy sp.env S).1 = .loaded st)
    (hu : truthy (getPdfUrl { sp.finalPage with pdf_url := st }) = some u) :
    (attemptBody url S sp =
      if sp.downloadOk (normalizeUrl url u) then .dlOk (normalizeUrl url u)
      else .dlFail (normalizeUrl url u)) ∧
    (strStarts "/" u = false → normalizeUrl url u = u) ∧
    (strStarts "/" u = true → normalizeUrl url u = urljoinSlash url u) := by
  refine ⟨?_, ?_, ?_⟩
  · simp [attemptBody, hraise, hload, hu]
  · intro h
    simp [normalizeUrl, h]
  · intro h
    simp [normalizeUrl, h]

/-- C4 witness: the extracted `doc.pdf` does not start with a slash, so the
download is attempted on the unchanged relative URL. -/
theorem C4_normalization_witness :
    (openPageWithStrategy relAnchorSpec.env WAIT_STRATEGIES).1 = .loaded none ∧
    truthy (getPdfUrl { relAnchorSpec.finalPage with pdf_url := none }) = some "doc.pdf" ∧
    attemptBody "https://issuu.com/docs/x" WAIT_STRATEGIES relAnchorSpec =
      .dlFail (normalizeUrl "https://issuu.com/docs/x" "doc.pdf") ∧
    normalizeUrl "https://issuu.com/docs/x" "doc.pdf" = "doc.pdf" := by
  have h := C4_normalization "https://issuu.com/docs/x" WAIT_STRATEGIES relAnchorSpec
    none "doc.pdf" rfl (by decide) (by decide)
  refine ⟨by decide, by decide, ?_, h.2.1 (by decide)⟩
  rw [h.1]
  simp [relAnchorSpec]

end IssuuCrawler
